import Mathlib

/-!
Shallow embedding of the ts-result library: a Rust-inspired result model
for TypeScript. The source exports a tagged-union type `Result<T, E>`
(variants `Ok<T>` with field `data`, `Err<E>` with field `error`,
discriminant field `success`), constructors `ok`/`err`, predicates
`isOk`/`isErr`, extraction operations (`expect`, `unwrap`,
`unwrapOrDefault`, `unwrapOrElse`, `unwrapOrUndefined`, `unwrapOrNull`)
and transformation operations (`mapResultData`, `mapResultDataOrDefault`,
`mapResultError`).

Modelling conventions:
- the tagged union becomes a two-constructor inductive; the discriminant
  field `result.success` becomes `Result.success`;
- `throw new Error(msg)` becomes `Except.error msg`; a TypeScript function
  whose body contains no `throw` is embedded as a plain total function;
- to reason about which operations can raise, each operation also has a
  `Thr` form that is the same source body embedded uniformly with
  exception semantics: codomain `Except String _`, and caller-supplied
  callbacks of type `_ → Except String _` so that a throwing callback's
  failure can be tracked;
- the TypeScript value domain `T | undefined | null` is embedded as
  `JsOpt T`, with distinct sentinels for `undefined` and `null`.
-/

namespace TsResult

/-- Tagged union `Result<T, E> = Ok<T> | Err<E>`: `Ok` carries the field
`data : T`, `Err` carries the field `error : E`. -/
inductive Result (T : Type) (E : Type) : Type where
  | Ok (data : T)
  | Err (error : E)
deriving DecidableEq, Repr

/-- Discriminant field `success` of the tagged union: `true` on `Ok`
values and `false` on `Err` values. -/
def Result.success {T E : Type} : Result T E → Bool
  | .Ok _ => true
  | .Err _ => false

/-- Constructor `ok`: `(data) => ({ success: true, data })`. -/
def ok {T E : Type} (data : T) : Result T E := Result.Ok data

/-- Constructor `err`: `(error) => ({ success: false, error })`. -/
def err {T E : Type} (error : E) : Result T E := Result.Err error

/-- Predicate `isOk`: `(result) => result.success`. -/
def isOk {T E : Type} (result : Result T E) : Bool := result.success

/-- Predicate `isErr`: `(result) => !result.success`. -/
def isErr {T E : Type} (result : Result T E) : Bool := !result.success

/-- Operation `expect`: returns `result.data` when `result.success`,
otherwise `throw new Error(message)`. -/
def expect {T E : Type} (result : Result T E) (message : String) :
    Except String T :=
  match result with
  | .Ok data => .ok data
  | .Err _ => .error message

/-- Operation `unwrap`: returns `result.data` when `result.success`,
otherwise `throw new Error('unsuccessful result')`. -/
def unwrap {T E : Type} (result : Result T E) : Except String T :=
  match result with
  | .Ok data => .ok data
  | .Err _ => .error "unsuccessful result"

/-- Operation `unwrapOrDefault`:
`result.success ? result.data : defaultValue`. -/
def unwrapOrDefault {T E : Type} (result : Result T E) (defaultValue : T) :
    T :=
  match result with
  | .Ok data => data
  | .Err _ => defaultValue

/-- Operation `unwrapOrElse`:
`result.success ? result.data : func(result.error)`. -/
def unwrapOrElse {T E : Type} (result : Result T E) (func : E → T) : T :=
  match result with
  | .Ok data => data
  | .Err error => func error

/-- Embedding of the TypeScript value domain `T | undefined | null`:
`undefined` and `null` are distinct sentinel values, both distinct from
every wrapped `value t`. -/
inductive JsOpt (T : Type) : Type where
  | value (t : T)
  | jsUndefined
  | jsNull
deriving DecidableEq, Repr

/-- Operation `unwrapOrUndefined`:
`result.success ? result.data : undefined`. -/
def unwrapOrUndefined {T E : Type} (result : Result T E) : JsOpt T :=
  match result with
  | .Ok data => .value data
  | .Err _ => .jsUndefined

/-- Operation `unwrapOrNull`:
`result.success ? result.data : null`. -/
def unwrapOrNull {T E : Type} (result : Result T E) : JsOpt T :=
  match result with
  | .Ok data => .value data
  | .Err _ => .jsNull

/-- Operation `mapResultData`:
`result.success ? ok(func(result.data)) : result`. In the `Err` branch
the source returns the same `Err` value; only its success-channel type
parameter changes, so the embedding rebuilds the identical payload. -/
def mapResultData {T T2 E : Type} (result : Result T E) (func : T → T2) :
    Result T2 E :=
  match result with
  | .Ok data => ok (func data)
  | .Err error => Result.Err error

/-- Operation `mapResultDataOrDefault`:
`result.success ? ok(func(result.data)) : ok(defaultValue)`. -/
def mapResultDataOrDefault {T T2 E : Type} (result : Result T E)
    (func : T → T2) (defaultValue : T2) : Result T2 E :=
  match result with
  | .Ok data => ok (func data)
  | .Err _ => ok defaultValue

/-- Operation `mapResultError`:
`result.success ? result : err(func(result.error))`. In the `Ok` branch
the source returns the same `Ok` value; only its error-channel type
parameter changes, so the embedding rebuilds the identical payload. -/
def mapResultError {T E E2 : Type} (result : Result T E) (func : E → E2) :
    Result T E2 :=
  match result with
  | .Ok data => Result.Ok data
  | .Err error => err (func error)

/-- Constructor `ok` embedded with exception semantics: its body contains
no throw, so it returns normally on every input. -/
def okThr {T E : Type} (data : T) : Except String (Result T E) :=
  .ok (Result.Ok data)

/-- Constructor `err` embedded with exception semantics: its body contains
no throw, so it returns normally on every input. -/
def errThr {T E : Type} (error : E) : Except String (Result T E) :=
  .ok (Result.Err error)

/-- Predicate `isOk` embedded with exception semantics: its body
`result.success` contains no throw. -/
def isOkThr {T E : Type} (result : Result T E) : Except String Bool :=
  .ok result.success

/-- Predicate `isErr` embedded with exception semantics: its body
`!result.success` contains no throw. -/
def isErrThr {T E : Type} (result : Result T E) : Except String Bool :=
  .ok (!result.success)

/-- Operation `unwrapOrDefault` embedded with exception semantics: both
branches of its body return normally. -/
def unwrapOrDefaultThr {T E : Type} (result : Result T E)
    (defaultValue : T) : Except String T :=
  match result with
  | .Ok data => .ok data
  | .Err _ => .ok defaultValue

/-- Operation `unwrapOrElse` embedded with exception semantics: the
caller-supplied `func` may throw, and in the `Err` branch its outcome is
returned as-is (neither caught nor wrapped). -/
def unwrapOrElseThr {T E : Type} (result : Result T E)
    (func : E → Except String T) : Except String T :=
  match result with
  | .Ok data => .ok data
  | .Err error => func error

/-- Operation `unwrapOrUndefined` embedded with exception semantics: both
branches of its body return normally. -/
def unwrapOrUndefinedThr {T E : Type} (result : Result T E) :
    Except String (JsOpt T) :=
  match result with
  | .Ok data => .ok (.value data)
  | .Err _ => .ok .jsUndefined

/-- Operation `unwrapOrNull` embedded with exception semantics: both
branches of its body return normally. -/
def unwrapOrNullThr {T E : Type} (result : Result T E) :
    Except String (JsOpt T) :=
  match result with
  | .Ok data => .ok (.value data)
  | .Err _ => .ok .jsNull

/-- Operation `mapResultData` embedded with exception semantics: in the
`Ok` branch the caller-supplied `func` is invoked and a throw from it
propagates unmodified; the `Err` branch never invokes `func`. -/
def mapResultDataThr {T T2 E : Type} (result : Result T E)
    (func : T → Except String T2) : Except String (Result T2 E) :=
  match result with
  | .Ok data =>
    match func data with
    | .ok mapped => .ok (ok mapped)
    | .error m => .error m
  | .Err error => .ok (Result.Err error)

/-- Operation `mapResultDataOrDefault` embedded with exception semantics:
in the `Ok` branch the caller-supplied `func` is invoked and a throw from
it propagates unmodified; the `Err` branch never invokes `func`. -/
def mapResultDataOrDefaultThr {T T2 E : Type} (result : Result T E)
    (func : T → Except String T2) (defaultValue : T2) :
    Except String (Result T2 E) :=
  match result with
  | .Ok data =>
    match func data with
    | .ok mapped => .ok (ok mapped)
    | .error m => .error m
  | .Err _ => .ok (ok defaultValue)

/-- Operation `mapResultError` embedded with exception semantics: in the
`Err` branch the caller-supplied `func` is invoked and a throw from it
propagates unmodified; the `Ok` branch never invokes `func`. -/
def mapResultErrorThr {T E E2 : Type} (result : Result T E)
    (func : E → Except String E2) : Except String (Result T E2) :=
  match result with
  | .Ok data => .ok (Result.Ok data)
  | .Err error =>
    match func error with
    | .ok mapped => .ok (err mapped)
    | .error m => .error m

/-- Claim C1: `unwrap (ok d)` returns `d`, and `unwrap (err e)` fails with
the fixed description "unsuccessful result", independent of the content
of `e` (the right-hand side does not mention `e`). -/
theorem unwrap_ok_err_spec {T E : Type} (d : T) (e : E) :
    unwrap (ok d : Result T E) = Except.ok d ∧
    unwrap (err e : Result T E) = Except.error "unsuccessful result" :=
  ⟨rfl, rfl⟩

/-- Claim C2: `expect (ok d) m` returns `d` for any message `m`, and
`expect (err e) m` fails with exactly the caller-supplied message `m`
carried verbatim as its description. -/
theorem expect_ok_err_spec {T E : Type} (d : T) (e : E) (m : String) :
    expect (ok d : Result T E) m = Except.ok d ∧
    expect (err e : Result T E) m = Except.error m :=
  ⟨rfl, rfl⟩

/-- Claim C3: `mapResultData (ok d) func` is `ok (func d)`;
`mapResultData (err e) func` is the original `err e` unchanged; and in
the exception-semantics embedding an `Err` input yields the unchanged
`err e` for every callback, including ones that always throw, so the
callback is never invoked in the `Err` case. -/
theorem mapResultData_spec {T T2 E : Type} (d : T) (e : E)
    (func : T → T2) :
    mapResultData (ok d : Result T E) func = ok (func d) ∧
    mapResultData (err e : Result T E) func = (err e : Result T2 E) ∧
    (∀ tfunc : T → Except String T2,
      mapResultDataThr (err e : Result T E) tfunc =
        Except.ok (err e : Result T2 E)) :=
  ⟨rfl, rfl, fun _ => rfl⟩

/-- Claim C4: `mapResultDataOrDefault (ok d) func dv` is `ok (func d)`,
`mapResultDataOrDefault (err e) func dv` is `ok dv`, and on every input
the returned value is the `Ok` variant. -/
theorem mapResultDataOrDefault_spec {T T2 E : Type} (d : T) (e : E)
    (func : T → T2) (dv : T2) :
    mapResultDataOrDefault (ok d : Result T E) func dv = ok (func d) ∧
    mapResultDataOrDefault (err e : Result T E) func dv = ok dv ∧
    (∀ r : Result T E, isOk (mapResultDataOrDefault r func dv) = true) :=
  ⟨rfl, rfl, fun r => by cases r <;> rfl⟩

/-- Claim C5: `mapResultError (err e) func` is `err (func e)`;
`mapResultError (ok d) func` is the original `ok d` unchanged; and in the
exception-semantics embedding an `Ok` input yields the unchanged `ok d`
for every callback, including ones that always throw, so the callback is
never invoked in the `Ok` case. -/
theorem mapResultError_spec {T E E2 : Type} (d : T) (e : E)
    (func : E → E2) :
    mapResultError (err e : Result T E) func = err (func e) ∧
    mapResultError (ok d : Result T E) func = (ok d : Result T E2) ∧
    (∀ tfunc : E → Except String E2,
      mapResultErrorThr (ok d : Result T E) tfunc =
        Except.ok (ok d : Result T E2)) :=
  ⟨rfl, rfl, fun _ => rfl⟩

/-- Claim C6: the four non-throwing unwrap variants return the data on
`Ok`; on `Err` they return respectively the default value, `func e`, the
`undefined` sentinel and the `null` sentinel, the two sentinels being
distinct representations; and in the exception-semantics embedding each
of the four returns normally on every input (given a total fallback). -/
theorem unwrap_variants_spec {T E : Type} (d : T) (e : E) (dv : T)
    (func : E → T) :
    unwrapOrDefault (ok d : Result T E) dv = d ∧
    unwrapOrDefault (err e : Result T E) dv = dv ∧
    unwrapOrElse (ok d : Result T E) func = d ∧
    unwrapOrElse (err e : Result T E) func = func e ∧
    unwrapOrUndefined (ok d : Result T E) = JsOpt.value d ∧
    unwrapOrUndefined (err e : Result T E) = JsOpt.jsUndefined ∧
    unwrapOrNull (ok d : Result T E) = JsOpt.value d ∧
    unwrapOrNull (err e : Result T E) = JsOpt.jsNull ∧
    (JsOpt.jsUndefined : JsOpt T) ≠ JsOpt.jsNull ∧
    (∀ r : Result T E,
      unwrapOrDefaultThr r dv = Except.ok (unwrapOrDefault r dv)) ∧
    (∀ r : Result T E,
      unwrapOrElseThr r (fun x => Except.ok (func x)) =
        Except.ok (unwrapOrElse r func)) ∧
    (∀ r : Result T E,
      unwrapOrUndefinedThr r = Except.ok (unwrapOrUndefined r)) ∧
    (∀ r : Result T E,
      unwrapOrNullThr r = Except.ok (unwrapOrNull r)) := by
  refine ⟨rfl, rfl, rfl, rfl, rfl, rfl, rfl, rfl, ?_, ?_, ?_, ?_, ?_⟩
  · intro h
    exact JsOpt.noConfusion h
  all_goals intro r; cases r <;> rfl

/-- Claim C7: `expect` and `unwrap` are the only operations that can
raise: `expect (err e) m` and `unwrap (err e)` fail, while in the
exception-semantics embedding the constructors, the predicates, the four
non-throwing unwrap variants and the three mapping operations all return
normally on every `Result` input when the caller-supplied callback is
total, and a throwing callback's failure propagates unmodified. -/
theorem only_expect_unwrap_raise {T E T2 E2 : Type} (d : T) (e : E)
    (dv : T) (f : E → T) (g : T → T2) (h : E → E2) (dv2 : T2)
    (m : String) :
    expect (err e : Result T E) m = Except.error m ∧
    unwrap (err e : Result T E) = Except.error "unsuccessful result" ∧
    okThr d = Except.ok (ok d : Result T E) ∧
    errThr e = Except.ok (err e : Result T E) ∧
    (∀ r : Result T E, isOkThr r = Except.ok (isOk r)) ∧
    (∀ r : Result T E, isErrThr r = Except.ok (isErr r)) ∧
    (∀ r : Result T E,
      unwrapOrDefaultThr r dv = Except.ok (unwrapOrDefault r dv)) ∧
    (∀ r : Result T E,
      unwrapOrElseThr r (fun x => Except.ok (f x)) =
        Except.ok (unwrapOrElse r f)) ∧
    (∀ r : Result T E,
      unwrapOrUndefinedThr r = Except.ok (unwrapOrUndefined r)) ∧
    (∀ r : Result T E,
      unwrapOrNullThr r = Except.ok (unwrapOrNull r)) ∧
    (∀ r : Result T E,
      mapResultDataThr r (fun x => Except.ok (g x)) =
        Except.ok (mapResultData r g)) ∧
    (∀ r : Result T E,
      mapResultDataOrDefaultThr r (fun x => Except.ok (g x)) dv2 =
        Except.ok (mapResultDataOrDefault r g dv2)) ∧
    (∀ r : Result T E,
      mapResultErrorThr r (fun x => Except.ok (h x)) =
        Except.ok (mapResultError r h)) ∧
    unwrapOrElseThr (err e : Result T E) (fun _ => Except.error m) =
      Except.error m ∧
    mapResultDataThr (ok d : Result T E)
      (fun _ => (Except.error m : Except String T2)) = Except.error m ∧
    mapResultDataOrDefaultThr (ok d : Result T E)
      (fun _ => (Except.error m : Except String T2)) dv2 =
        Except.error m ∧
    mapResultErrorThr (err e : Result T E)
      (fun _ => (Except.error m : Except String E2)) = Except.error m := by
  refine ⟨rfl, rfl, rfl, rfl, ?_, ?_, ?_, ?_, ?_, ?_, ?_, ?_, ?_,
    rfl, rfl, rfl, rfl⟩
  all_goals intro r; cases r <;> rfl

/-- Claim C8: `isOk` is true exactly on `Ok` values and `isErr` exactly
on `Err` values; `isErr` is the boolean negation of `isOk`, and on every
constructed result the two predicates disagree. -/
theorem predicates_spec {T E : Type} (d : T) (e : E) :
    isOk (ok d : Result T E) = true ∧
    isErr (ok d : Result T E) = false ∧
    isOk (err e : Result T E) = false ∧
    isErr (err e : Result T E) = true ∧
    (∀ r : Result T E, isErr r = !isOk r) ∧
    (∀ r : Result T E, isOk r ≠ isErr r) := by
  refine ⟨rfl, rfl, rfl, rfl, fun r => rfl, fun r => ?_⟩
  cases r <;> simp [isOk, isErr, Result.success]

/-- Claim C9: `unwrap r` behaves identically to
`expect r "unsuccessful result"` on every result: same data on `Ok`,
same failure with the same description on `Err`; the two failure paths
differ only by message, not by error kind. -/
theorem unwrap_eq_expect {T E : Type} :
    ∀ r : Result T E, unwrap r = expect r "unsuccessful result" := by
  intro r
  cases r <;> rfl

/-- Claim C10: `mapResultData` satisfies the functor laws: mapping with
`f` and then `g` equals mapping once with the composition applying `f`
then `g`, and mapping with the identity returns the result unchanged. -/
theorem mapResultData_functor {T T2 T3 E : Type} (f : T → T2)
    (g : T2 → T3) :
    (∀ r : Result T E,
      mapResultData (mapResultData r f) g =
        mapResultData r (fun x => g (f x))) ∧
    (∀ r : Result T E, mapResultData r (fun x => x) = r) := by
  constructor <;> intro r <;> cases r <;> rfl

end TsResult
